import Mathlib

/-!
Shallow embedding of the service-weaver health-probing engine
(backend `internal/monitoring/healthcheck.go` and `internal/models`),
together with theorems checking the natural-language specification
against it.

Conventions of the embedding:
* Go `int` becomes `Int`; wall-clock instants are `Int` seconds.
* Go `time.Now()` is modelled by a clock stream `clock : Nat → Int`
  read at successive indices, one index per `time.Now()` call in the
  source, threaded through the state.
* Go maps of JSON values (`models.JSON`) become association lists of
  `JValue`; Go map lookup becomes `List.lookup`.
* Fallible collaborators (repository, ping utility, DNS resolver, UDP
  socket) become oracles recorded in an environment structure, so the
  probe bodies are total functions of the environment.
* The broadcast channel of capacity 100 becomes a `List StatusUpdate`
  bounded by `broadcastCap`; the non-blocking `select`/`default` send
  becomes an enqueue that drops when the list is full.
-/

namespace ServiceWeaver

/-- `models.ServiceStatus`: the closed sum of service statuses. -/
inductive ServiceStatus where
  | unknown
  | alive
  | dead
  | degraded
  | checking
deriving Repr, DecidableEq

/-- A JSON value as stored in a `models.JSON` field (only the shapes
the classifier inspects: a value is either a string or some non-string
value). -/
inductive JValue where
  | jstr (s : String)
  | jnum (n : Int)
  | jbool (b : Bool)
  | jnull
deriving Repr, DecidableEq

/-- The fields of `models.Service` read by the probing engine
(identity, connection data, per-method probe options, and the
scheduler bookkeeping columns). -/
structure Service where
  id : Int
  host : String
  port : Int
  healthcheckMethod : String
  healthcheckURL : String
  pollingInterval : Int
  requestTimeout : Int
  expectedStatus : Int
  statusMapping : List (String × JValue)
  udpSendData : String
  udpExpectData : String
  icmpPacketCount : Int
  dnsQueryType : String
  dnsExpectedResult : String
  lastChecked : Option Int
deriving Repr, DecidableEq

/-- `models.HealthcheckResult`: one persisted probe outcome. -/
structure HealthcheckResult where
  serviceID : Int
  status : ServiceStatus
  statusCode : Int
  responseTime : Int
  error : String
  checkedAt : Int
deriving Repr, DecidableEq

/-- `models.StatusUpdate`: the broadcast message. -/
structure StatusUpdate where
  serviceID : Int
  status : ServiceStatus
  timestamp : Int
deriving Repr, DecidableEq

/-- `strings.Contains`: substring test on the underlying characters. -/
def containsSubstr (s sub : String) : Bool :=
  (List.range (s.data.length + 1)).any (fun i => sub.data.isPrefixOf (s.data.drop i))

/-- `HealthcheckScheduler.determineStatus` (healthcheck.go): classify
an HTTP status code using the custom status mapping first, then the
expected status, then the 429/503 special cases. -/
def determineStatus (statusCode : Int) (service : Service) : ServiceStatus :=
  if service.statusMapping.length > 0 then
    match service.statusMapping.lookup (toString statusCode) with
    | some (JValue.jstr status) =>
      if status == "alive" then ServiceStatus.alive
      else if status == "degraded" then ServiceStatus.degraded
      else if status == "dead" then ServiceStatus.dead
      else
        if statusCode == service.expectedStatus then ServiceStatus.alive
        else if statusCode == 429 || statusCode == 503 then ServiceStatus.degraded
        else ServiceStatus.dead
    | _ =>
      if statusCode == service.expectedStatus then ServiceStatus.alive
      else if statusCode == 429 || statusCode == 503 then ServiceStatus.degraded
      else ServiceStatus.dead
  else
    if statusCode == service.expectedStatus then ServiceStatus.alive
    else if statusCode == 429 || statusCode == 503 then ServiceStatus.degraded
    else ServiceStatus.dead

/-- The fall-through classification (expected status, then 429/503,
then dead), as worded by the spec. -/
def fallbackStatus (statusCode : Int) (service : Service) : ServiceStatus :=
  if statusCode == service.expectedStatus then ServiceStatus.alive
  else if statusCode == 429 || statusCode == 503 then ServiceStatus.degraded
  else ServiceStatus.dead

/-- Classifier written from the spec text of section 4.4: the mapping
wins when it holds one of the three recognized tags for the string
form of the code, otherwise the fall-through rules apply. -/
def classifySpec (statusCode : Int) (service : Service) : ServiceStatus :=
  match service.statusMapping.lookup (toString statusCode) with
  | some (JValue.jstr tag) =>
    if tag == "alive" then ServiceStatus.alive
    else if tag == "degraded" then ServiceStatus.degraded
    else if tag == "dead" then ServiceStatus.dead
    else fallbackStatus statusCode service
  | _ => fallbackStatus statusCode service

/-- Is a mapping value one of the three recognized status tags? -/
def recognizedTag : JValue → Bool
  | JValue.jstr s => s == "alive" || s == "degraded" || s == "dead"
  | _ => false

/-- `HealthcheckScheduler.shouldCheck` (healthcheck.go): a service is
due for a probe when its host is set, URL-requiring methods have a
URL, and the polling interval has elapsed since the last check.
`now` stands for the instant `time.Since` reads the clock. -/
def shouldCheck (now : Int) (service : Service) : Bool :=
  if service.host == "" then false
  else if (service.healthcheckMethod == "HTTP" || service.healthcheckMethod == "HTTPS" ||
      service.healthcheckMethod == "WEBSOCKET" || service.healthcheckMethod == "WSS" ||
      service.healthcheckMethod == "GRPC") && service.healthcheckURL == "" then false
  else
    match service.lastChecked with
    | none => true
    | some t => decide (now - t ≥ service.pollingInterval)

/-- A handy base record for concrete services in examples. -/
def baseService : Service :=
  { id := 1
    host := "h"
    port := 80
    healthcheckMethod := "TCP"
    healthcheckURL := ""
    pollingInterval := 30
    requestTimeout := 2
    expectedStatus := 200
    statusMapping := []
    udpSendData := ""
    udpExpectData := ""
    icmpPacketCount := 0
    dnsQueryType := "A"
    dnsExpectedResult := ""
    lastChecked := none }

example : determineStatus 429 { baseService with statusMapping := [("429", JValue.jstr "degraded")] } = ServiceStatus.degraded := by decide
example : determineStatus 200 { baseService with statusMapping := [("200", JValue.jstr "dead")] } = ServiceStatus.dead := by decide
example : determineStatus 503 baseService = ServiceStatus.degraded := by decide
example : shouldCheck 5 { baseService with lastChecked := some 0, pollingInterval := 5 } = true := by decide

/-- Network / process side effects a probe performs, in order. -/
inductive IOEvent where
  | dial (network : String) (address : String)
  | setReadDeadline
  | write (data : String)
  | read
  | execPing (count : Int) (wait : Int) (host : String)
  | dnsLookup (queryType : String) (host : String)
deriving Repr, DecidableEq

/-- State threaded through one probe dispatch: the next `time.Now()`
index, the next `repo.UpdateServiceStatus` call index, and the content
of the `broadcast` channel. -/
structure SchedState where
  clockIdx : Nat
  updateIdx : Nat
  queue : List StatusUpdate
deriving Repr, DecidableEq

/-- Outcome of one `updateServiceStatus` call: the repository write
failed (early return, nothing broadcast), or the update was enqueued,
or the channel was full and the update dropped. -/
inductive UpdateOutcome where
  | repoFailed
  | published
  | dropped
deriving Repr, DecidableEq

/-- What a probe function returns: the status, the error (if any), the
possibly amended `HealthcheckResult`, the threaded state, and the I/O
events it performed. -/
structure ProbeReturn where
  status : ServiceStatus
  error : Option String
  result : HealthcheckResult
  state : SchedState
  trace : List IOEvent
deriving Repr, DecidableEq

/-- Oracle for the UDP socket used by `performUDPHealthcheck`:
outcomes of dial, SetReadDeadline, Write and Read. -/
structure UdpConn where
  dialErr : Option String
  deadlineErr : Option String
  writeErr : Option String
  readErr : Option String
  readData : String
deriving Repr, DecidableEq

/-- Oracle for `net.Resolver`: each lookup either fails with an error
string or returns the records (IP strings, the canonical name, MX/NS
record hosts, TXT strings). -/
structure Resolver where
  lookupIPAddr : String → Except String (List String)
  lookupCNAME : String → Except String String
  lookupMX : String → Except String (List String)
  lookupNS : String → Except String (List String)
  lookupTXT : String → Except String (List String)

/-- The collaborators of one probe dispatch: the clock stream, the
per-call outcomes of `repo.UpdateServiceStatus`, the ping utility, the
DNS resolver, the UDP socket, and the probes of the remaining thirteen
protocols (whose internals no claim depends on). -/
structure Env where
  clock : Nat → Int
  updateOk : Nat → Bool
  ping : Int → Int → String → Except String String
  resolver : Resolver
  udp : UdpConn
  otherProbe : String → HealthcheckResult → SchedState → ProbeReturn

/-- Capacity of the `broadcast` channel (`make(chan models.StatusUpdate, 100)`). -/
def broadcastCap : Nat := 100

/-- `HealthcheckScheduler.updateServiceStatus` (healthcheck.go lines
1134-1152): write the latest status through the repository; on write
error log and return without broadcasting; otherwise build a
`StatusUpdate` stamped with `time.Now()` and send it with a
non-blocking `select` that drops the update when the channel is full. -/
def updateServiceStatusM (env : Env) (serviceID : Int) (status : ServiceStatus)
    (st : SchedState) : SchedState × UpdateOutcome :=
  let ok := env.updateOk st.updateIdx
  let st1 : SchedState := { st with updateIdx := st.updateIdx + 1 }
  if ok then
    let t := env.clock st1.clockIdx
    let update : StatusUpdate := ⟨serviceID, status, t⟩
    let room := st1.queue.length < broadcastCap
    ({ st1 with clockIdx := st1.clockIdx + 1,
                queue := if room then st1.queue ++ [update] else st1.queue },
     if room then UpdateOutcome.published else UpdateOutcome.dropped)
  else
    (st1, UpdateOutcome.repoFailed)

/-- The `-c` argument passed to the ping utility: the configured
`ICMPPacketCount`, replaced by 3 when it is not positive. -/
def icmpPacketArg (service : Service) : Int :=
  if service.icmpPacketCount ≤ 0 then 3 else service.icmpPacketCount

/-- The `-W` argument passed to the ping utility:
`int(timeout.Seconds())` where `timeout = RequestTimeout * time.Second`. -/
def icmpWaitArg (service : Service) : Int :=
  service.requestTimeout

/-- `HealthcheckScheduler.performICMPHealthcheck` (healthcheck.go
lines 528-554): run the ping utility; command failure or an output
containing "0 received" is `Dead`, otherwise `Alive` with the measured
response time. -/
def performICMPHealthcheckM (env : Env) (service : Service)
    (result : HealthcheckResult) (st : SchedState) : ProbeReturn :=
  let start := env.clock st.clockIdx
  let st1 : SchedState := { st with clockIdx := st.clockIdx + 1 }
  let trace := [IOEvent.execPing (icmpPacketArg service) (icmpWaitArg service) service.host]
  match env.ping (icmpPacketArg service) (icmpWaitArg service) service.host with
  | Except.error e => ⟨ServiceStatus.dead, some e, result, st1, trace⟩
  | Except.ok output =>
    if containsSubstr output "0 received" then
      ⟨ServiceStatus.dead, some ("ping failed: " ++ output), result, st1, trace⟩
    else
      let rt := env.clock st1.clockIdx - start
      let st2 : SchedState := { st1 with clockIdx := st1.clockIdx + 1 }
      ⟨ServiceStatus.alive, none, { result with responseTime := rt }, st2, trace⟩

/-- `HealthcheckScheduler.performUDPHealthcheck` (healthcheck.go lines
479-526): dial UDP, set the read deadline, then require `UDPSendData`
to be non-empty, write it, and when `UDPExpectData` is set read and
require a substring match. -/
def performUDPHealthcheckM (env : Env) (service : Service)
    (result : HealthcheckResult) (st : SchedState) : ProbeReturn :=
  let start := env.clock st.clockIdx
  let st1 : SchedState := { st with clockIdx := st.clockIdx + 1 }
  let address := service.host ++ ":" ++ toString service.port
  let trace0 := [IOEvent.dial "udp" address]
  match env.udp.dialErr with
  | some e => ⟨ServiceStatus.dead, some e, result, st1, trace0⟩
  | none =>
    let st2 : SchedState := { st1 with clockIdx := st1.clockIdx + 1 }
    let trace1 := trace0 ++ [IOEvent.setReadDeadline]
    match env.udp.deadlineErr with
    | some e => ⟨ServiceStatus.dead, some e, result, st2, trace1⟩
    | none =>
      if service.udpSendData == "" then
        ⟨ServiceStatus.dead, some "UDP send data is required", result, st2, trace1⟩
      else
        let trace2 := trace1 ++ [IOEvent.write service.udpSendData]
        match env.udp.writeErr with
        | some e => ⟨ServiceStatus.dead, some e, result, st2, trace2⟩
        | none =>
          if service.udpExpectData != "" then
            let trace3 := trace2 ++ [IOEvent.read]
            match env.udp.readErr with
            | some e => ⟨ServiceStatus.dead, some e, result, st2, trace3⟩
            | none =>
              if !(containsSubstr env.udp.readData service.udpExpectData) then
                ⟨ServiceStatus.dead,
                  some ("expected response \x27" ++ service.udpExpectData ++
                    "\x27 not found in \x27" ++ env.udp.readData ++ "\x27"),
                  result, st2, trace3⟩
              else
                let rt := env.clock st2.clockIdx - start
                let st3 : SchedState := { st2 with clockIdx := st2.clockIdx + 1 }
                ⟨ServiceStatus.alive, none, { result with responseTime := rt }, st3, trace3⟩
          else
            let rt := env.clock st2.clockIdx - start
            let st3 : SchedState := { st2 with clockIdx := st2.clockIdx + 1 }
            ⟨ServiceStatus.alive, none, { result with responseTime := rt }, st3, trace2⟩

/-- `HealthcheckScheduler.performDNSHealthcheck` (healthcheck.go lines
556-669): switch on `DNSQueryType` with cases A, CNAME, MX, NS, TXT
and a default returning `Dead` for any other query type; when
`DNSExpectedResult` is set, apply the per-type match rule. -/
def performDNSHealthcheckM (env : Env) (service : Service)
    (result : HealthcheckResult) (st : SchedState) : ProbeReturn :=
  let start := env.clock st.clockIdx
  let st1 : SchedState := { st with clockIdx := st.clockIdx + 1 }
  let finish := fun (stf : SchedState) (trace : List IOEvent) =>
    let rt := env.clock stf.clockIdx - start
    let st2 : SchedState := { stf with clockIdx := stf.clockIdx + 1 }
    (⟨ServiceStatus.alive, none, { result with responseTime := rt }, st2, trace⟩ : ProbeReturn)
  match service.dnsQueryType with
  | "A" =>
    let trace := [IOEvent.dnsLookup "A" service.host]
    match env.resolver.lookupIPAddr service.host with
    | Except.error e => ⟨ServiceStatus.dead, some e, result, st1, trace⟩
    | Except.ok ips =>
      if service.dnsExpectedResult != "" then
        if ips.any (fun ip => ip == service.dnsExpectedResult) then
          finish st1 trace
        else
          ⟨ServiceStatus.dead,
            some ("expected IP \x27" ++ service.dnsExpectedResult ++
              "\x27 not found in DNS response"), result, st1, trace⟩
      else
        finish st1 trace
  | "CNAME" =>
    let trace := [IOEvent.dnsLookup "CNAME" service.host]
    match env.resolver.lookupCNAME service.host with
    | Except.error e => ⟨ServiceStatus.dead, some e, result, st1, trace⟩
    | Except.ok cname =>
      if service.dnsExpectedResult != "" && cname != service.dnsExpectedResult then
        ⟨ServiceStatus.dead,
          some ("expected CNAME \x27" ++ service.dnsExpectedResult ++
            "\x27 but got \x27" ++ cname ++ "\x27"), result, st1, trace⟩
      else
        finish st1 trace
  | "MX" =>
    let trace := [IOEvent.dnsLookup "MX" service.host]
    match env.resolver.lookupMX service.host with
    | Except.error e => ⟨ServiceStatus.dead, some e, result, st1, trace⟩
    | Except.ok mxRecords =>
      if service.dnsExpectedResult != "" then
        if mxRecords.any (fun mx => mx == service.dnsExpectedResult) then
          finish st1 trace
        else
          ⟨ServiceStatus.dead,
            some ("expected MX record \x27" ++ service.dnsExpectedResult ++
              "\x27 not found"), result, st1, trace⟩
      else
        finish st1 trace
  | "NS" =>
    let trace := [IOEvent.dnsLookup "NS" service.host]
    match env.resolver.lookupNS service.host with
    | Except.error e => ⟨ServiceStatus.dead, some e, result, st1, trace⟩
    | Except.ok nsRecords =>
      if service.dnsExpectedResult != "" then
        if nsRecords.any (fun ns => ns == service.dnsExpectedResult) then
          finish st1 trace
        else
          ⟨ServiceStatus.dead,
            some ("expected NS record \x27" ++ service.dnsExpectedResult ++
              "\x27 not found"), result, st1, trace⟩
      else
        finish st1 trace
  | "TXT" =>
    let trace := [IOEvent.dnsLookup "TXT" service.host]
    match env.resolver.lookupTXT service.host with
    | Except.error e => ⟨ServiceStatus.dead, some e, result, st1, trace⟩
    | Except.ok txtRecords =>
      if service.dnsExpectedResult != "" then
        if txtRecords.any (fun txt => containsSubstr txt service.dnsExpectedResult) then
          finish st1 trace
        else
          ⟨ServiceStatus.dead,
            some ("expected TXT record containing \x27" ++ service.dnsExpectedResult ++
              "\x27 not found"), result, st1, trace⟩
      else
        finish st1 trace
  | t =>
    ⟨ServiceStatus.dead, some ("unsupported DNS query type: " ++ t), result, st1, []⟩

/-- Everything one `performHealthcheck` dispatch produces: the built
result record, the persisted copy (`none` when
`CreateHealthcheckResult` failed), the two `updateServiceStatus`
outcomes, the final state, the clock indices bracketing the probe
call, and the probe I/O trace. -/
structure RunOutput where
  result : HealthcheckResult
  savedResult : Option HealthcheckResult
  checkingOutcome : UpdateOutcome
  finalOutcome : UpdateOutcome
  finalState : SchedState
  probeEntryIdx : Nat
  probeExitIdx : Nat
  probeTrace : List IOEvent
deriving Repr, DecidableEq

/-- The `switch service.HealthcheckMethod` block of
`HealthcheckScheduler.performHealthcheck` (healthcheck.go lines
319-354): dispatch to the probe for the method; the default case
returns `Dead` with an unsupported-method error, sets the error on the
result record, and performs no I/O. -/
def dispatchProbe (env : Env) (service : Service) (result0 : HealthcheckResult)
    (st : SchedState) : ProbeReturn :=
  match service.healthcheckMethod with
  | "HTTP" | "HTTPS" | "TCP" | "WEBSOCKET" | "GRPC" | "SMTP" | "FTP" | "SSH"
  | "REDIS" | "MYSQL" | "POSTGRES" | "MONGODB" | "KAFKA" =>
    env.otherProbe service.healthcheckMethod result0 st
  | "UDP" => performUDPHealthcheckM env service result0 st
  | "ICMP" => performICMPHealthcheckM env service result0 st
  | "DNS" => performDNSHealthcheckM env service result0 st
  | m =>
    { status := ServiceStatus.dead
      error := some ("unsupported health check method: " ++ m)
      result := { result0 with error := "unsupported health check method: " ++ m }
      state := st
      trace := [] }

/-- `HealthcheckScheduler.performHealthcheck` (healthcheck.go lines
303-368): record `start`, publish `Checking`, build the result record
with `ResponseTime` and `CheckedAt` taken now, dispatch on the method
(default: `Dead` with an unsupported-method error and no probe call),
copy status and error into the result, persist it best-effort
(`createOk` is the `CreateHealthcheckResult` outcome), and publish the
terminal status. -/
def performHealthcheck (env : Env) (createOk : Bool) (service : Service)
    (st0 : SchedState) : RunOutput :=
  let start := env.clock st0.clockIdx
  let sta : SchedState := { st0 with clockIdx := st0.clockIdx + 1 }
  let checking := updateServiceStatusM env service.id ServiceStatus.checking sta
  let stb := checking.1
  let responseTime := env.clock stb.clockIdx - start
  let stc : SchedState := { stb with clockIdx := stb.clockIdx + 1 }
  let checkedAt := env.clock stc.clockIdx
  let std : SchedState := { stc with clockIdx := stc.clockIdx + 1 }
  let result0 : HealthcheckResult :=
    { serviceID := service.id, status := ServiceStatus.unknown, statusCode := 0,
      responseTime := responseTime, error := "", checkedAt := checkedAt }
  let probeEntryIdx := std.clockIdx
  let pr : ProbeReturn := dispatchProbe env service result0 std
  let ste := pr.state
  let probeExitIdx := ste.clockIdx
  let result1 : HealthcheckResult := { pr.result with status := pr.status }
  let result2 : HealthcheckResult :=
    match pr.error with
    | some e => { result1 with error := e }
    | none => result1
  let savedResult := if createOk then some result2 else none
  let final := updateServiceStatusM env service.id pr.status ste
  { result := result2
    savedResult := savedResult
    checkingOutcome := checking.2
    finalOutcome := final.2
    finalState := final.1
    probeEntryIdx := probeEntryIdx
    probeExitIdx := probeExitIdx
    probeTrace := pr.trace }

/-- One scheduler tick (healthcheck.go lines 272-276): dispatch a
probe for every service the `shouldCheck` filter passes. There is no
other dispatch condition. -/
def dispatchTick (now : Int) (services : List Service) : List Service :=
  services.filter (fun s => shouldCheck now s)

/-- Effect of the `Checking` update on the service row as later ticks
read it back: `repository.UpdateServiceStatus` sets
`last_checked = CURRENT_TIMESTAMP` (repository.go). -/
def applyCheckingUpdate (now : Int) (s : Service) : Service :=
  { s with lastChecked := some now }

/-- One delivery round of `broadcastHandler` (healthcheck.go lines
242-251) for a single received update: the update is written to every
client; a client whose write fails is closed and deleted, all others
are kept. Clients are identified by numbers, `writeOk` is the oracle
for `WriteJSON`. -/
def broadcastStep (writeOk : Nat → Bool) (clients : List Nat) : List Nat :=
  clients.filter (fun c => writeOk c)

/-! ## Theorems -/

lemma determineStatus_eq_classifySpec_aux (c : Int) (s : Service) :
    determineStatus c s = classifySpec c s := by
  rcases hsm : s.statusMapping with _ | ⟨kv, rest⟩
  · simp [determineStatus, classifySpec, fallbackStatus, hsm]
  · simp only [determineStatus, classifySpec, fallbackStatus, hsm, List.length_cons]
    have hpos : (0 : Nat) < rest.length + 1 := Nat.succ_pos _
    rw [if_pos hpos]

lemma classifySpec_jstr_aux (c : Int) (s : Service) (tag : String)
    (hl : s.statusMapping.lookup (toString c) = some (JValue.jstr tag)) :
    classifySpec c s =
      if tag == "alive" then ServiceStatus.alive
      else if tag == "degraded" then ServiceStatus.degraded
      else if tag == "dead" then ServiceStatus.dead
      else fallbackStatus c s := by
  unfold classifySpec
  rw [hl]

lemma classifySpec_none_aux (c : Int) (s : Service)
    (hl : s.statusMapping.lookup (toString c) = none) :
    classifySpec c s = fallbackStatus c s := by
  unfold classifySpec
  rw [hl]

lemma classifySpec_nonstr_aux (c : Int) (s : Service) (v : JValue)
    (hl : s.statusMapping.lookup (toString c) = some v)
    (hv : ∀ tag, v ≠ JValue.jstr tag) :
    classifySpec c s = fallbackStatus c s := by
  unfold classifySpec
  rw [hl]
  cases v with
  | jstr tag => exact absurd rfl (hv tag)
  | jnum n => rfl
  | jbool b => rfl
  | jnull => rfl

/-- C2: for every HTTP/HTTPS response code and every service, the
status classifier agrees with the spec rule of section 4.4: a
recognized `statusMapping` entry for the string form of the code wins
(also over a matching `expectedStatus`); otherwise a code equal to
`expectedStatus` is `Alive`, then 429/503 are `Degraded`, and
everything else is `Dead`. -/
theorem C2_classifier_refines_spec (c : Int) (s : Service) :
    determineStatus c s = classifySpec c s :=
  determineStatus_eq_classifySpec_aux c s

lemma shouldCheck_iff_aux (now : Int) (s : Service) :
    shouldCheck now s = true ↔
      (s.host ≠ "" ∧
       ((s.healthcheckMethod = "HTTP" ∨ s.healthcheckMethod = "HTTPS" ∨
         s.healthcheckMethod = "WEBSOCKET" ∨ s.healthcheckMethod = "WSS" ∨
         s.healthcheckMethod = "GRPC") → s.healthcheckURL ≠ "") ∧
       (s.lastChecked = none ∨
        ∃ t, s.lastChecked = some t ∧ now - t ≥ s.pollingInterval)) := by
  unfold shouldCheck
  rcases hlc : s.lastChecked with _ | t <;>
    by_cases hh : s.host = "" <;>
      simp [hh, hlc] <;> tauto

/-- C3: `shouldCheck` returns true exactly when the host is set, a
URL-requiring method (HTTP, HTTPS, WebSocket, WSS, gRPC) has a
non-empty healthcheck path, and either the service was never checked
or the polling interval has elapsed. -/
theorem C3_shouldCheck_characterization (now : Int) (s : Service) :
    shouldCheck now s = true ↔
      (s.host ≠ "" ∧
       ((s.healthcheckMethod = "HTTP" ∨ s.healthcheckMethod = "HTTPS" ∨
         s.healthcheckMethod = "WEBSOCKET" ∨ s.healthcheckMethod = "WSS" ∨
         s.healthcheckMethod = "GRPC") → s.healthcheckURL ≠ "") ∧
       (s.lastChecked = none ∨
        ∃ t, s.lastChecked = some t ∧ now - t ≥ s.pollingInterval)) :=
  shouldCheck_iff_aux now s

lemma fallbackStatus_total_aux (c : Int) (s : Service) :
    fallbackStatus c s = ServiceStatus.alive ∨ fallbackStatus c s = ServiceStatus.degraded ∨
      fallbackStatus c s = ServiceStatus.dead := by
  unfold fallbackStatus
  split_ifs <;> simp

lemma classifySpec_total_aux (c : Int) (s : Service) :
    classifySpec c s = ServiceStatus.alive ∨ classifySpec c s = ServiceStatus.degraded ∨
      classifySpec c s = ServiceStatus.dead := by
  rcases hl : s.statusMapping.lookup (toString c) with _ | v
  · rw [classifySpec_none_aux c s hl]
    exact fallbackStatus_total_aux c s
  · cases v with
    | jstr tag =>
      rw [classifySpec_jstr_aux c s tag hl]
      split_ifs <;> simp [fallbackStatus_total_aux c s]
    | jnum n =>
      rw [classifySpec_nonstr_aux c s _ hl (by intro tag h; cases h)]
      exact fallbackStatus_total_aux c s
    | jbool b =>
      rw [classifySpec_nonstr_aux c s _ hl (by intro tag h; cases h)]
      exact fallbackStatus_total_aux c s
    | jnull =>
      rw [classifySpec_nonstr_aux c s _ hl (by intro tag h; cases h)]
      exact fallbackStatus_total_aux c s

/-- C10: the classifier only ever returns `Alive`, `Degraded` or
`Dead` (never `Unknown` or `Checking`), and a mapping entry whose
value is not one of the three recognized string tags is ignored: the
classification falls through to the expected-status and 429/503
rules. -/
theorem C10_classifier_total_junk_ignored (c : Int) (s : Service) :
    (determineStatus c s = ServiceStatus.alive ∨
     determineStatus c s = ServiceStatus.degraded ∨
     determineStatus c s = ServiceStatus.dead) ∧
    (∀ v, s.statusMapping.lookup (toString c) = some v → recognizedTag v = false →
      determineStatus c s = fallbackStatus c s) := by
  constructor
  · rw [determineStatus_eq_classifySpec_aux]
    exact classifySpec_total_aux c s
  · intro v hv hrec
    rw [determineStatus_eq_classifySpec_aux]
    cases v with
    | jstr tag =>
      rw [classifySpec_jstr_aux c s tag hv]
      split_ifs with ha hb hc
      · simp [recognizedTag, ha] at hrec
      · simp [recognizedTag, hb] at hrec
      · simp [recognizedTag, hc] at hrec
      · rfl
    | jnum n => exact classifySpec_nonstr_aux c s _ hv (by intro tag h; cases h)
    | jbool b => exact classifySpec_nonstr_aux c s _ hv (by intro tag h; cases h)
    | jnull => exact classifySpec_nonstr_aux c s _ hv (by intro tag h; cases h)

/-- Resolver oracle whose lookups all fail (for runs that never reach
the resolver). -/
def trivialResolver : Resolver :=
  { lookupIPAddr := fun _ => Except.error "no resolver"
    lookupCNAME := fun _ => Except.error "no resolver"
    lookupMX := fun _ => Except.error "no resolver"
    lookupNS := fun _ => Except.error "no resolver"
    lookupTXT := fun _ => Except.error "no resolver" }

/-- UDP socket oracle on which every operation succeeds. -/
def trivialUdp : UdpConn :=
  { dialErr := none, deadlineErr := none, writeErr := none, readErr := none, readData := "" }

/-- A concrete environment for witnesses and counterexamples: the
clock ticks 1000 per reading, every repository write succeeds, ping
succeeds with a clean output. -/
def baseEnv : Env :=
  { clock := fun n => 1000 * (n : Int)
    updateOk := fun _ => true
    ping := fun _ _ _ => Except.ok "3 packets transmitted, 3 received"
    resolver := trivialResolver
    udp := trivialUdp
    otherProbe := fun _ r st => ⟨ServiceStatus.dead, some "probe error", r, st, []⟩ }

/-- A concrete result record for witnesses. -/
def baseResult : HealthcheckResult :=
  { serviceID := 1, status := ServiceStatus.unknown, statusCode := 0,
    responseTime := 0, error := "", checkedAt := 0 }

/-- C1 counterexample: a probe dispatch in which the final
`UpdateServiceStatus` persistence write fails. The probe itself
succeeds (ICMP, clean ping output), yet the terminal `StatusUpdate` is
never published: `updateServiceStatus` returns on the repository error
before reaching the broadcast, so the queue still holds only the
`Checking` update. This refutes that a persistence failure never
suppresses the publish. -/
theorem C1_counterexample :
    (performHealthcheck { baseEnv with updateOk := fun n => n == 0 } true
      { baseService with healthcheckMethod := "ICMP", id := 7 } ⟨0, 0, []⟩).finalOutcome =
        UpdateOutcome.repoFailed ∧
    (performHealthcheck { baseEnv with updateOk := fun n => n == 0 } true
      { baseService with healthcheckMethod := "ICMP", id := 7 } ⟨0, 0, []⟩).result.status =
        ServiceStatus.alive ∧
    (performHealthcheck { baseEnv with updateOk := fun n => n == 0 } true
      { baseService with healthcheckMethod := "ICMP", id := 7 } ⟨0, 0, []⟩).finalState.queue =
        [⟨7, ServiceStatus.checking, 1000⟩] := by
  decide

/-- C1 amended: a failure of `CreateHealthcheckResult` is log-only
(the run is identical except that no result record is persisted, so
the terminal publish still happens), but a failure of
`UpdateServiceStatus` returns early and does suppress the publish:
the state, including the broadcast queue, is left untouched. -/
theorem C1_amended_publish_suppression (env : Env) (s : Service) (st : SchedState)
    (serviceID : Int) (status : ServiceStatus)
    (hfail : env.updateOk st.updateIdx = false) :
    performHealthcheck env false s st =
      { performHealthcheck env true s st with savedResult := none } ∧
    updateServiceStatusM env serviceID status st =
      ({ st with updateIdx := st.updateIdx + 1 }, UpdateOutcome.repoFailed) := by
  constructor
  · simp [performHealthcheck]
  · simp [updateServiceStatusM, hfail]

/-- C1 amended witness: concrete instantiation with every repository
write failing. -/
theorem C1_amended_witness :
    performHealthcheck { baseEnv with updateOk := fun _ => false } false
        { baseService with healthcheckMethod := "ICMP", id := 7 } ⟨0, 0, []⟩ =
      { performHealthcheck { baseEnv with updateOk := fun _ => false } true
          { baseService with healthcheckMethod := "ICMP", id := 7 } ⟨0, 0, []⟩ with
        savedResult := none } ∧
    updateServiceStatusM { baseEnv with updateOk := fun _ => false } 7 ServiceStatus.alive
        ⟨0, 0, []⟩ =
      ((⟨0, 1, []⟩ : SchedState), UpdateOutcome.repoFailed) :=
  C1_amended_publish_suppression { baseEnv with updateOk := fun _ => false }
    { baseService with healthcheckMethod := "ICMP", id := 7 } ⟨0, 0, []⟩ 7
    ServiceStatus.alive rfl

/-- Environment for the C5 counterexample: ping always fails, the
clock ticks 1000 per reading. -/
def envC5 : Env :=
  { baseEnv with ping := fun _ _ _ => Except.error "exec failed" }

/-- The C5 counterexample run: an ICMP dispatch whose probe fails. -/
def runC5 : RunOutput :=
  performHealthcheck envC5 true { baseService with healthcheckMethod := "ICMP" } ⟨0, 0, []⟩

/-- C5 counterexample: in a dispatch whose probe fails, the persisted
latency (2000) is the time from `start` to a clock reading taken
before the probe was even invoked (probe entry is at 4000, probe exit
at 5000), and `checkedAt` (3000) also predates the probe. So neither
does the latency equal the wall-clock span ending after the probe
returns, nor is `checkedAt` taken after the probe completes. -/
theorem C5_counterexample :
    runC5.result.responseTime = 2000 ∧
    runC5.result.checkedAt = 3000 ∧
    envC5.clock runC5.probeEntryIdx = 4000 ∧
    envC5.clock runC5.probeExitIdx = 5000 ∧
    ¬ (runC5.result.responseTime = envC5.clock runC5.probeExitIdx - envC5.clock 0) ∧
    ¬ (envC5.clock runC5.probeExitIdx ≤ runC5.result.checkedAt) := by
  decide

/-- C5 amended: `ResponseTime` and `CheckedAt` are computed before the
probe dispatch (`ResponseTime` from clock readings 0 and 2,
`CheckedAt` from reading 3, while the probe only starts at reading 4).
A probe that fails leaves those pre-dispatch values in the persisted
result; a probe that succeeds overwrites `ResponseTime` with the span
of its own clock window (readings 4 to 5 for ICMP), and `CheckedAt`
keeps the pre-dispatch value in every case. -/
theorem C5_amended_timing (env : Env) (createOk : Bool) (s : Service)
    (q : List StatusUpdate) (hm : s.healthcheckMethod = "ICMP")
    (hu : env.updateOk 0 = true) :
    ((∃ e, env.ping (icmpPacketArg s) (icmpWaitArg s) s.host = Except.error e) →
      (performHealthcheck env createOk s ⟨0, 0, q⟩).result.responseTime =
        env.clock 2 - env.clock 0 ∧
      (performHealthcheck env createOk s ⟨0, 0, q⟩).result.checkedAt = env.clock 3 ∧
      (performHealthcheck env createOk s ⟨0, 0, q⟩).probeEntryIdx = 4 ∧
      (performHealthcheck env createOk s ⟨0, 0, q⟩).probeExitIdx = 5) ∧
    (∀ output, env.ping (icmpPacketArg s) (icmpWaitArg s) s.host = Except.ok output →
      containsSubstr output "0 received" = false →
      (performHealthcheck env createOk s ⟨0, 0, q⟩).result.responseTime =
        env.clock 5 - env.clock 4 ∧
      (performHealthcheck env createOk s ⟨0, 0, q⟩).result.checkedAt = env.clock 3) := by
  constructor
  · rintro ⟨e, hp⟩
    simp [performHealthcheck, dispatchProbe, updateServiceStatusM, performICMPHealthcheckM,
      hm, hu, hp]
  · intro output hp hsub
    simp [performHealthcheck, dispatchProbe, updateServiceStatusM, performICMPHealthcheckM,
      hm, hu, hp, hsub]

/-- C5 amended witness: concrete evaluations of both branches, the
failing-ping run and the clean-ping run. -/
theorem C5_amended_witness :
    (runC5.result.responseTime = envC5.clock 2 - envC5.clock 0 ∧
     runC5.result.checkedAt = envC5.clock 3 ∧
     runC5.probeEntryIdx = 4 ∧
     runC5.probeExitIdx = 5) ∧
    ((performHealthcheck baseEnv true { baseService with healthcheckMethod := "ICMP" }
        ⟨0, 0, []⟩).result.responseTime = baseEnv.clock 5 - baseEnv.clock 4 ∧
     (performHealthcheck baseEnv true { baseService with healthcheckMethod := "ICMP" }
        ⟨0, 0, []⟩).result.checkedAt = baseEnv.clock 3) :=
  ⟨(C5_amended_timing envC5 true { baseService with healthcheckMethod := "ICMP" } []
      rfl rfl).1 ⟨"exec failed", rfl⟩,
   (C5_amended_timing baseEnv true { baseService with healthcheckMethod := "ICMP" } []
      rfl rfl).2 "3 packets transmitted, 3 received" rfl (by decide)⟩

/-- C6 counterexample: with `icmpPacketCount = 11` the ping utility is
invoked with a packet count of 11, outside the claimed range 1..10:
the code replaces only non-positive counts by 3 and has no upper
clamp. -/
theorem C6_counterexample :
    (performHealthcheck baseEnv true
      { baseService with healthcheckMethod := "ICMP", icmpPacketCount := 11 }
      ⟨0, 0, []⟩).probeTrace = [IOEvent.execPing 11 2 "h"] ∧
    ¬ ((11 : Int) ≤ 10) := by
  decide

/-- C6 amended: the packet count passed to ping is 3 when the
configured `icmpPacketCount` is not positive and the configured value
unchanged otherwise (no upper clamp); the per-packet wait equals
`RequestTimeout` seconds; and the probe returns `Dead` exactly when
the command fails or its output contains "0 received", otherwise
`Alive`. -/
theorem C6_amended_icmp (env : Env) (s : Service) (r : HealthcheckResult)
    (st : SchedState) :
    (s.icmpPacketCount ≤ 0 → icmpPacketArg s = 3) ∧
    (0 < s.icmpPacketCount → icmpPacketArg s = s.icmpPacketCount) ∧
    icmpWaitArg s = s.requestTimeout ∧
    (performICMPHealthcheckM env s r st).trace =
      [IOEvent.execPing (icmpPacketArg s) (icmpWaitArg s) s.host] ∧
    ((performICMPHealthcheckM env s r st).status = ServiceStatus.dead ↔
      (∃ e, env.ping (icmpPacketArg s) (icmpWaitArg s) s.host = Except.error e) ∨
      (∃ o, env.ping (icmpPacketArg s) (icmpWaitArg s) s.host = Except.ok o ∧
        containsSubstr o "0 received" = true)) ∧
    ((performICMPHealthcheckM env s r st).status = ServiceStatus.dead ∨
     (performICMPHealthcheckM env s r st).status = ServiceStatus.alive) := by
  refine ⟨fun h => by unfold icmpPacketArg; rw [if_pos h],
          fun h => by unfold icmpPacketArg; rw [if_neg (by omega)],
          rfl, ?_, ?_, ?_⟩
  · cases hp : env.ping (icmpPacketArg s) (icmpWaitArg s) s.host with
    | error e => simp [performICMPHealthcheckM, hp]
    | ok o =>
      by_cases hc : containsSubstr o "0 received" = true
      · simp [performICMPHealthcheckM, hp, hc]
      · simp [performICMPHealthcheckM, hp, hc]
  · cases hp : env.ping (icmpPacketArg s) (icmpWaitArg s) s.host with
    | error e => simp [performICMPHealthcheckM, hp]
    | ok o =>
      by_cases hc : containsSubstr o "0 received" = true
      · simp [performICMPHealthcheckM, hp, hc]
      · simp [performICMPHealthcheckM, hp, hc]
  · cases hp : env.ping (icmpPacketArg s) (icmpWaitArg s) s.host with
    | error e => simp [performICMPHealthcheckM, hp]
    | ok o =>
      by_cases hc : containsSubstr o "0 received" = true
      · simp [performICMPHealthcheckM, hp, hc]
      · simp [performICMPHealthcheckM, hp, hc]

/-- C6 amended witness: a non-positive configured count becomes 3, a
positive one is used unchanged. -/
theorem C6_amended_witness :
    icmpPacketArg { baseService with icmpPacketCount := -2 } = 3 ∧
    icmpPacketArg { baseService with icmpPacketCount := 7 } = 7 :=
  ⟨(C6_amended_icmp baseEnv { baseService with icmpPacketCount := -2 } baseResult
      ⟨0, 0, []⟩).1 (by decide),
   (C6_amended_icmp baseEnv { baseService with icmpPacketCount := 7 } baseResult
      ⟨0, 0, []⟩).2.1 (by decide)⟩

/-- The DNS query-type enum declared by the spec data model. -/
def dnsQueryTypeEnum : List String := ["A", "AAAA", "CNAME", "MX", "TXT", "NS", "SOA"]

/-- Resolver environment whose lookups all succeed with fixed records. -/
def dnsEnv : Env :=
  { baseEnv with resolver :=
    { lookupIPAddr := fun _ => Except.ok ["10.0.0.1", "10.0.0.2"]
      lookupCNAME := fun _ => Except.ok "alias.example."
      lookupMX := fun _ => Except.ok ["mail.example."]
      lookupNS := fun _ => Except.ok ["ns1.example."]
      lookupTXT := fun _ => Except.ok ["v=spf1 include:x"] } }

/-- C7 counterexample: "AAAA" belongs to the declared query-type enum,
yet the probe returns `Dead` with the unsupported-query-type error
(the switch only handles A, CNAME, MX, NS, TXT), refuting that only
types outside the enum are rejected as unsupported. -/
theorem C7_counterexample :
    "AAAA" ∈ dnsQueryTypeEnum ∧
    (performDNSHealthcheckM dnsEnv { baseService with dnsQueryType := "AAAA" } baseResult
      ⟨0, 0, []⟩).status = ServiceStatus.dead ∧
    (performDNSHealthcheckM dnsEnv { baseService with dnsQueryType := "AAAA" } baseResult
      ⟨0, 0, []⟩).error = some "unsupported DNS query type: AAAA" := by
  decide

/-- C7 amended: only A, CNAME, MX, NS and TXT queries are handled,
with the per-type match rule applied when `dnsExpectedResult` is
non-empty (membership for A, equality for CNAME, any record equal for
MX/NS, any record containing the substring for TXT); AAAA and SOA,
although in the declared enum, fall to the unsupported branch and
yield `Dead`. -/
theorem C7_amended_dns (env : Env) (s : Service) (r : HealthcheckResult)
    (st : SchedState) :
    ((performDNSHealthcheckM env { s with dnsQueryType := "AAAA" } r st).status =
        ServiceStatus.dead ∧
     (performDNSHealthcheckM env { s with dnsQueryType := "AAAA" } r st).error =
        some "unsupported DNS query type: AAAA") ∧
    ((performDNSHealthcheckM env { s with dnsQueryType := "SOA" } r st).status =
        ServiceStatus.dead ∧
     (performDNSHealthcheckM env { s with dnsQueryType := "SOA" } r st).error =
        some "unsupported DNS query type: SOA") ∧
    (∀ ips, env.resolver.lookupIPAddr s.host = Except.ok ips →
      ((performDNSHealthcheckM env { s with dnsQueryType := "A" } r st).status =
          ServiceStatus.alive ↔
        (s.dnsExpectedResult = "" ∨ ∃ ip ∈ ips, ip = s.dnsExpectedResult))) ∧
    (∀ cname, env.resolver.lookupCNAME s.host = Except.ok cname →
      ((performDNSHealthcheckM env { s with dnsQueryType := "CNAME" } r st).status =
          ServiceStatus.alive ↔
        (s.dnsExpectedResult = "" ∨ cname = s.dnsExpectedResult))) ∧
    (∀ recs, env.resolver.lookupMX s.host = Except.ok recs →
      ((performDNSHealthcheckM env { s with dnsQueryType := "MX" } r st).status =
          ServiceStatus.alive ↔
        (s.dnsExpectedResult = "" ∨ ∃ mx ∈ recs, mx = s.dnsExpectedResult))) ∧
    (∀ recs, env.resolver.lookupNS s.host = Except.ok recs →
      ((performDNSHealthcheckM env { s with dnsQueryType := "NS" } r st).status =
          ServiceStatus.alive ↔
        (s.dnsExpectedResult = "" ∨ ∃ ns ∈ recs, ns = s.dnsExpectedResult))) ∧
    (∀ recs, env.resolver.lookupTXT s.host = Except.ok recs →
      ((performDNSHealthcheckM env { s with dnsQueryType := "TXT" } r st).status =
          ServiceStatus.alive ↔
        (s.dnsExpectedResult = "" ∨
         ∃ txt ∈ recs, containsSubstr txt s.dnsExpectedResult = true))) := by
  refine ⟨⟨rfl, rfl⟩, ⟨rfl, rfl⟩, ?_, ?_, ?_, ?_, ?_⟩
  · intro ips hip
    by_cases he : s.dnsExpectedResult = ""
    · simp [performDNSHealthcheckM, hip, he]
    · by_cases hm : ips.any (fun ip => ip == s.dnsExpectedResult) = true
      · simp only [List.any_eq_true, beq_iff_eq] at hm
        simp [performDNSHealthcheckM, hip, he, List.any_eq_true, hm]
      · simp only [List.any_eq_true, beq_iff_eq] at hm
        simp [performDNSHealthcheckM, hip, he, List.any_eq_true, hm]
  · intro cname hc
    by_cases he : s.dnsExpectedResult = ""
    · simp [performDNSHealthcheckM, hc, he]
    · by_cases hq : cname = s.dnsExpectedResult
      · simp [performDNSHealthcheckM, hc, he, hq]
      · simp [performDNSHealthcheckM, hc, he, hq]
  · intro recs hr
    by_cases he : s.dnsExpectedResult = ""
    · simp [performDNSHealthcheckM, hr, he]
    · by_cases hm : recs.any (fun mx => mx == s.dnsExpectedResult) = true
      · simp only [List.any_eq_true, beq_iff_eq] at hm
        simp [performDNSHealthcheckM, hr, he, List.any_eq_true, hm]
      · simp only [List.any_eq_true, beq_iff_eq] at hm
        simp [performDNSHealthcheckM, hr, he, List.any_eq_true, hm]
  · intro recs hr
    by_cases he : s.dnsExpectedResult = ""
    · simp [performDNSHealthcheckM, hr, he]
    · by_cases hm : recs.any (fun ns => ns == s.dnsExpectedResult) = true
      · simp only [List.any_eq_true, beq_iff_eq] at hm
        simp [performDNSHealthcheckM, hr, he, List.any_eq_true, hm]
      · simp only [List.any_eq_true, beq_iff_eq] at hm
        simp [performDNSHealthcheckM, hr, he, List.any_eq_true, hm]
  · intro recs hr
    by_cases he : s.dnsExpectedResult = ""
    · simp [performDNSHealthcheckM, hr, he]
    · by_cases hm : recs.any (fun txt => containsSubstr txt s.dnsExpectedResult) = true
      · simp only [List.any_eq_true] at hm
        simp [performDNSHealthcheckM, hr, he, List.any_eq_true, hm]
      · simp only [List.any_eq_true] at hm
        simp [performDNSHealthcheckM, hr, he, List.any_eq_true, hm]

/-- C7 amended witness: concrete runs with the fixed resolver, the
rejected AAAA query and the A query with a matching expected IP. -/
theorem C7_amended_witness :
    ((performDNSHealthcheckM dnsEnv
        { baseService with dnsExpectedResult := "10.0.0.1", dnsQueryType := "AAAA" }
        baseResult ⟨0, 0, []⟩).status = ServiceStatus.dead ∧
     (performDNSHealthcheckM dnsEnv
        { baseService with dnsExpectedResult := "10.0.0.1", dnsQueryType := "AAAA" }
        baseResult ⟨0, 0, []⟩).error = some "unsupported DNS query type: AAAA") ∧
    ((performDNSHealthcheckM dnsEnv
        { baseService with dnsExpectedResult := "10.0.0.1", dnsQueryType := "A" }
        baseResult ⟨0, 0, []⟩).status = ServiceStatus.alive ↔
      (("10.0.0.1" : String) = "" ∨
       ∃ ip ∈ (["10.0.0.1", "10.0.0.2"] : List String), ip = "10.0.0.1")) :=
  ⟨(C7_amended_dns dnsEnv { baseService with dnsExpectedResult := "10.0.0.1" }
      baseResult ⟨0, 0, []⟩).1,
   (C7_amended_dns dnsEnv { baseService with dnsExpectedResult := "10.0.0.1" }
      baseResult ⟨0, 0, []⟩).2.2.1 ["10.0.0.1", "10.0.0.2"] rfl⟩

/-- The sixteen method tags the `switch` in `performHealthcheck`
handles with a dedicated probe. -/
def handledMethods : List String :=
  ["HTTP", "HTTPS", "TCP", "UDP", "ICMP", "DNS", "WEBSOCKET", "GRPC", "SMTP", "FTP",
   "SSH", "REDIS", "MYSQL", "POSTGRES", "MONGODB", "KAFKA"]

lemma dispatchProbe_unsupported_aux (env : Env) (s : Service) (r : HealthcheckResult)
    (st : SchedState) (hm : s.healthcheckMethod ∉ handledMethods) :
    dispatchProbe env s r st =
      { status := ServiceStatus.dead
        error := some ("unsupported health check method: " ++ s.healthcheckMethod)
        result := { r with error := "unsupported health check method: " ++ s.healthcheckMethod }
        state := st
        trace := [] } := by
  unfold dispatchProbe
  split <;> simp_all [handledMethods]

/-- C8 counterexample: a UDP probe with empty `UDPSendData` does
return `Dead` with the required-send-data error, but only after the
UDP socket has been dialed and its read deadline set: the probe I/O
trace already holds two events when the configuration error is
raised, refuting that the error precedes any network I/O. -/
theorem C8_counterexample :
    (performHealthcheck baseEnv true
      { baseService with healthcheckMethod := "UDP", port := 9, udpSendData := "" }
      ⟨0, 0, []⟩).result.status = ServiceStatus.dead ∧
    (performHealthcheck baseEnv true
      { baseService with healthcheckMethod := "UDP", port := 9, udpSendData := "" }
      ⟨0, 0, []⟩).result.error = "UDP send data is required" ∧
    (performHealthcheck baseEnv true
      { baseService with healthcheckMethod := "UDP", port := 9, udpSendData := "" }
      ⟨0, 0, []⟩).probeTrace = [IOEvent.dial "udp" "h:9", IOEvent.setReadDeadline] := by
  decide

/-- C8 amended: an unrecognized method yields `Dead` with the
unsupported-method error and an empty probe I/O trace (no network
I/O); a UDP probe with empty `UDPSendData` yields `Dead` with the
required-send-data error, but only after dialing the socket and
setting the read deadline (its trace holds exactly those two
events). -/
theorem C8_amended_config_invalid (env : Env) (createOk : Bool) (s : Service)
    (st : SchedState) (r : HealthcheckResult)
    (hm : s.healthcheckMethod ∉ handledMethods)
    (hd : env.udp.dialErr = none) (hdl : env.udp.deadlineErr = none)
    (hsd : s.udpSendData = "") :
    ((performHealthcheck env createOk s st).result.status = ServiceStatus.dead ∧
     (performHealthcheck env createOk s st).result.error =
       "unsupported health check method: " ++ s.healthcheckMethod ∧
     (performHealthcheck env createOk s st).probeTrace = []) ∧
    ((performUDPHealthcheckM env s r st).status = ServiceStatus.dead ∧
     (performUDPHealthcheckM env s r st).error = some "UDP send data is required" ∧
     (performUDPHealthcheckM env s r st).trace =
       [IOEvent.dial "udp" (s.host ++ ":" ++ toString s.port), IOEvent.setReadDeadline]) := by
  constructor
  · have h := fun r stx => dispatchProbe_unsupported_aux env s r stx hm
    simp [performHealthcheck, h]
  · simp [performUDPHealthcheckM, hd, hdl, hsd]

/-- C8 amended witness: a concrete unrecognized method "XYZ" and a
concrete UDP probe with empty send data. -/
theorem C8_amended_witness :
    ((performHealthcheck baseEnv true { baseService with healthcheckMethod := "XYZ" }
        ⟨0, 0, []⟩).result.status = ServiceStatus.dead ∧
     (performHealthcheck baseEnv true { baseService with healthcheckMethod := "XYZ" }
        ⟨0, 0, []⟩).result.error = "unsupported health check method: XYZ" ∧
     (performHealthcheck baseEnv true { baseService with healthcheckMethod := "XYZ" }
        ⟨0, 0, []⟩).probeTrace = []) ∧
    ((performUDPHealthcheckM baseEnv { baseService with healthcheckMethod := "XYZ" }
        baseResult ⟨0, 0, []⟩).status = ServiceStatus.dead ∧
     (performUDPHealthcheckM baseEnv { baseService with healthcheckMethod := "XYZ" }
        baseResult ⟨0, 0, []⟩).error = some "UDP send data is required" ∧
     (performUDPHealthcheckM baseEnv { baseService with healthcheckMethod := "XYZ" }
        baseResult ⟨0, 0, []⟩).trace =
       [IOEvent.dial "udp" "h:80", IOEvent.setReadDeadline]) :=
  C8_amended_config_invalid baseEnv true { baseService with healthcheckMethod := "XYZ" }
    ⟨0, 0, []⟩ baseResult (by decide) rfl rfl rfl

/-- Two dispatches of the same service at tick instants `t1` and `t2`
(the second tick reading the row as rewritten by the first probe's
`Checking` update), with the first probe still in flight during
`[t1, t1 + dur)` at the second dispatch. -/
def overlappingDispatch (s : Service) (t1 t2 dur : Int) : Bool :=
  shouldCheck t1 s && shouldCheck t2 (applyCheckingUpdate t1 s) &&
    decide (t1 ≤ t2) && decide (t2 < t1 + dur)

/-- C4 counterexample: a service with a 1-second polling interval,
dispatched at tick 0, is dispatched again at tick 5 while the first
probe (taking 10 seconds) is still in flight: the scheduler consults
only `shouldCheck`, which has no notion of a busy or in-flight
service, and the `HealthcheckScheduler` state carries no per-service
guard. -/
theorem C4_counterexample :
    overlappingDispatch { baseService with pollingInterval := 1 } 0 5 10 = true := by
  decide

/-- C4 amended: there is no per-service mutual-exclusion guard; the
only thing the second tick checks is `shouldCheck` on the updated
row. For a service with a valid host and path, a second probe is
dispatched exactly when the polling interval has elapsed since the
first probe's `Checking` update, and two probes of the same service
overlap exactly when in addition the first probe is still running at
the second dispatch instant. -/
theorem C4_amended_redispatch (s : Service) (t1 t2 dur : Int)
    (hhost : s.host ≠ "")
    (hurl : (s.healthcheckMethod = "HTTP" ∨ s.healthcheckMethod = "HTTPS" ∨
             s.healthcheckMethod = "WEBSOCKET" ∨ s.healthcheckMethod = "WSS" ∨
             s.healthcheckMethod = "GRPC") → s.healthcheckURL ≠ "") :
    (shouldCheck t2 (applyCheckingUpdate t1 s) = true ↔ t2 - t1 ≥ s.pollingInterval) ∧
    (overlappingDispatch s t1 t2 dur = true ↔
      (shouldCheck t1 s = true ∧ t2 - t1 ≥ s.pollingInterval ∧
       t1 ≤ t2 ∧ t2 < t1 + dur)) := by
  have hre : shouldCheck t2 (applyCheckingUpdate t1 s) = true ↔
      t2 - t1 ≥ s.pollingInterval := by
    rw [shouldCheck_iff_aux]
    simp only [applyCheckingUpdate]
    simp
    constructor
    · exact fun h => h.2.2
    · exact fun h => ⟨hhost, fun hd => hurl hd, h⟩
  refine ⟨hre, ?_⟩
  unfold overlappingDispatch
  simp only [Bool.and_eq_true, decide_eq_true_eq, hre]
  tauto

/-- C4 amended witness: the concrete overlap scenario of the
counterexample, characterized. -/
theorem C4_amended_witness :
    (shouldCheck 5 (applyCheckingUpdate 0 { baseService with pollingInterval := 1 }) = true ↔
      (5 : Int) - 0 ≥ 1) ∧
    (overlappingDispatch { baseService with pollingInterval := 1 } 0 5 10 = true ↔
      (shouldCheck 0 { baseService with pollingInterval := 1 } = true ∧
       (5 : Int) - 0 ≥ 1 ∧ (0 : Int) ≤ 5 ∧ (5 : Int) < 0 + 10)) :=
  C4_amended_redispatch { baseService with pollingInterval := 1 } 0 5 10
    (by decide) (by decide)

/-- C9: publishing a status update never blocks: with the central
queue full (and the repository write succeeding, so the publish is
actually attempted), the update is dropped and the queue left
unchanged; and a client survives a delivery round if and only if it
was present and its write succeeded, so eviction happens only on a
write error, never because of overflow. -/
theorem C9_nonblocking_publish_no_overflow_eviction (env : Env) (serviceID : Int)
    (status : ServiceStatus) (st : SchedState) (writeOk : Nat → Bool)
    (clients : List Nat) (c : Nat) :
    (st.queue.length ≥ broadcastCap → env.updateOk st.updateIdx = true →
      (updateServiceStatusM env serviceID status st).2 = UpdateOutcome.dropped ∧
      (updateServiceStatusM env serviceID status st).1.queue = st.queue) ∧
    (c ∈ broadcastStep writeOk clients ↔ c ∈ clients ∧ writeOk c = true) := by
  constructor
  · intro hfull hok
    have hnot : ¬ (st.queue.length < broadcastCap) := by omega
    constructor
    · simp [updateServiceStatusM, hok, hnot]
    · simp [updateServiceStatusM, hok, hnot]
  · simp [broadcastStep]

/-- C9 witness: a queue of 100 pending updates is full, the publish
drops; the write-failing client 2 is evicted, client 3 kept. -/
theorem C9_witness :
    ((updateServiceStatusM baseEnv 1 ServiceStatus.alive
        ⟨0, 0, List.replicate 100 ⟨1, ServiceStatus.alive, 0⟩⟩).2 = UpdateOutcome.dropped ∧
     (updateServiceStatusM baseEnv 1 ServiceStatus.alive
        ⟨0, 0, List.replicate 100 ⟨1, ServiceStatus.alive, 0⟩⟩).1.queue =
       List.replicate 100 ⟨1, ServiceStatus.alive, 0⟩) ∧
    ((2 : Nat) ∈ broadcastStep (fun c => c == 3) [2, 3] ↔
      ((2 : Nat) ∈ [2, 3] ∧ ((2 : Nat) == 3) = true)) :=
  ⟨(C9_nonblocking_publish_no_overflow_eviction baseEnv 1 ServiceStatus.alive
      ⟨0, 0, List.replicate 100 ⟨1, ServiceStatus.alive, 0⟩⟩ (fun c => c == 3) [2, 3] 2).1
      (by decide) rfl,
   (C9_nonblocking_publish_no_overflow_eviction baseEnv 1 ServiceStatus.alive
      ⟨0, 0, List.replicate 100 ⟨1, ServiceStatus.alive, 0⟩⟩ (fun c => c == 3) [2, 3] 2).2⟩

/-- C10 witness: concrete evaluation at status code 201 and a service
whose mapping holds an unrecognized tag for "201". -/
theorem C10_witness :
    (determineStatus 201 { baseService with statusMapping := [("201", JValue.jstr "weird")] } = ServiceStatus.alive ∨
     determineStatus 201 { baseService with statusMapping := [("201", JValue.jstr "weird")] } = ServiceStatus.degraded ∨
     determineStatus 201 { baseService with statusMapping := [("201", JValue.jstr "weird")] } = ServiceStatus.dead) ∧
    determineStatus 201 { baseService with statusMapping := [("201", JValue.jstr "weird")] } =
      fallbackStatus 201 { baseService with statusMapping := [("201", JValue.jstr "weird")] } :=
  ⟨(C10_classifier_total_junk_ignored 201 _).1,
   (C10_classifier_total_junk_ignored 201 _).2 (JValue.jstr "weird") (by decide) (by decide)⟩

end ServiceWeaver
